import Mathlib

/-!
Shallow embedding of the `BigNumber` arbitrary-precision decimal integer
library (`src/main.rs`).  A `BigNumber` stores its decimal digits
least-significant first in `digits` together with a `sign`.  Every
definition below is a direct translation of the corresponding Rust
method; loops that are not structurally recursive on their data (the
`while` loops of `divide`, `sqrt`, `is_divisible_by`) are modelled with
an explicit fuel parameter, returning `none` when the fuel runs out.
-/

/-- Rust `enum Sign { Positive, Negative }`. -/
inductive Sign where
  | Positive : Sign
  | Negative : Sign
deriving DecidableEq, Repr

/-- Rust `struct BigNumber { digits: Vec<u32>, sign: Sign }`;
digits are least-significant first. -/
structure BigNumber where
  digits : List Nat
  sign : Sign
deriving DecidableEq, Repr

/-- Denotation of a little-endian digit sequence as a natural number
(the magnitude the sequence stands for).  Used only to state claims
about magnitudes, not part of the Rust source. -/
def magVal (l : List Nat) : Nat :=
  l.foldr (fun d acc => acc * 10 + d) 0

/-- Two's-complement wrap of an `i32` value cast `as u32`. -/
def u32cast (v : Int) : Nat :=
  (v % (2 ^ 32 : Int)).toNat

namespace BigNumber

/-- Rust `make_abs`: set the sign to `Positive`. -/
def make_abs (self : BigNumber) : BigNumber :=
  { self with sign := Sign.Positive }

/-- Rust `shift_left(n)`: insert `n` zero digits at the least-significant
end (multiply the magnitude by `10^n`). -/
def shift_left (self : BigNumber) (n : Nat) : BigNumber :=
  { self with digits := List.replicate n 0 ++ self.digits }

/-- Rust `shift_right(n)`: drop up to `n` least-significant digits; if the
sequence becomes empty, push a single `0`. -/
def shift_right (self : BigNumber) (n : Nat) : BigNumber :=
  let d := self.digits.drop n
  { self with digits := if d.isEmpty then [0] else d }

/-- Rust `char::to_digit(10)`: `some` digit value for `'0'..'9'`, else `none`
(the source `unwrap`s, i.e. panics, on `none`). -/
def charToDigit (c : Char) : Option Nat :=
  if c.isDigit then some (c.toNat - '0'.toNat) else none

/-- Rust `from_string`: strip an optional leading `'-'` for the sign, then
map the remaining characters, reversed, through `to_digit(10)`.  A non-digit
character panics in the source; here that is `none`. -/
def from_string (input : String) : Option BigNumber :=
  let p : Sign × List Char :=
    match input.data with
    | '-' :: rest => (Sign.Negative, rest)
    | l => (Sign.Positive, l)
  (p.2.reverse.mapM charToDigit).map (fun ds => { digits := ds, sign := p.1 })

/-- The digit-pair scan of Rust `is_greater_than_or_equal_to`: the zipped
digit lists are walked in storage order (least-significant digit first);
the first differing pair decides; exhaustion yields `false`. -/
def geDigitsLoop : List Nat → List Nat → Bool
  | a :: as, b :: bs =>
    if a > b then true
    else if a < b then false
    else geDigitsLoop as bs
  | _, _ => false

/-- Rust `is_greater_than_or_equal_to`: longer digit sequence wins; on equal
length, `geDigitsLoop` scans the digit pairs in storage order. -/
def is_greater_than_or_equal_to (self other : BigNumber) : Bool :=
  if self.digits.length > other.digits.length then true
  else if self.digits.length < other.digits.length then false
  else geDigitsLoop self.digits other.digits

/-- Rust `is_zero`: exactly one stored digit and that digit is `0`. -/
def is_zero (self : BigNumber) : Bool :=
  self.digits.length == 1 && self.digits.getD 0 1 == 0

/-- Rust `is_positive`. -/
def is_positive (self : BigNumber) : Bool :=
  self.sign = Sign.Positive

/-- Rust `is_negative`. -/
def is_negative (self : BigNumber) : Bool :=
  self.sign = Sign.Negative

/-- Rust `normalize` on the digit list: pop digits from the
most-significant end (the list's tail) while they are `0`. -/
def normalizeDigits (l : List Nat) : List Nat :=
  (l.reverse.dropWhile (fun d => d == 0)).reverse

/-- Rust `normalize`: strip most-significant zero digits. -/
def normalize (self : BigNumber) : BigNumber :=
  { self with digits := normalizeDigits self.digits }

/-- Rust `print`, modelled as the string written to stdout: `"0"` when the
digit list is empty, else an optional `-` followed by the digits
most-significant first. -/
def print (self : BigNumber) : String :=
  if self.digits.isEmpty then "0"
  else
    (if self.sign = Sign.Negative then "-" else "")
      ++ String.join (self.digits.reverse.map (fun d => toString d))

/-- The digit loop of Rust `_subtract`: walk `self`'s digits with a borrow,
taking `0` once `other`'s digits are exhausted; a negative difference is
wrapped by `+10` with a borrow of `1`.  The final store is the source's
`diff as u32` cast. -/
def subDigits : List Nat → List Nat → Int → List Nat
  | [], _, _ => []
  | d :: ds, os, borrow =>
    let o : Nat := os.headD 0
    let diff : Int := (d : Int) - (o : Int) - borrow
    if diff < 0 then u32cast (diff + 10) :: subDigits ds os.tail 1
    else u32cast diff :: subDigits ds os.tail 0

/-- Rust `_subtract`: magnitude subtraction of `other` from `self` in place,
followed by `normalize`; an emptied digit list is replaced by `[0]`. -/
def msub (self : BigNumber) (other : BigNumber) : BigNumber :=
  let d := normalizeDigits (subDigits self.digits other.digits 0)
  { self with digits := if d.length = 0 then [0] else d }

/-- The tail of Rust `_add`'s digit loop once `self`'s original digits are
exhausted (`self` was resized with zeros to the other operand's length,
so each position is `0 + other_digit + carry`); a final positive carry
is pushed as one extra entry. -/
def addTail : List Nat → Nat → List Nat
  | [], c => if c > 0 then [c] else []
  | o :: os, c =>
    let s := o + c
    s % 10 :: addTail os (s / 10)

/-- The digit loop of Rust `_add`: position-wise sum with carry over the
common length (`self` is first resized to the max length with zeros,
handled by `addTail`); a final positive carry is pushed as one extra
entry. -/
def addDigits : List Nat → List Nat → Nat → List Nat
  | [], os, c => addTail os c
  | d :: ds, os, c =>
    let s := d + os.headD 0 + c
    s % 10 :: addDigits ds os.tail (s / 10)

/-- Rust `_add`: magnitude addition into `self`; the sign is untouched. -/
def madd (self : BigNumber) (other : BigNumber) : BigNumber :=
  { self with digits := addDigits self.digits other.digits 0 }

/-- Rust `subtract(&mut self, other: &mut BigNumber)`: when the magnitude
comparison says `self < other`, `swap_digits` and `swap_sign_with_other`
exchange both fields between the operands; then the source's
`self.sign == Positive && self.sign == Positive` test picks `_subtract`
or `_add`.  The result pair is (`self` after, `other` after). -/
def subtract (self other : BigNumber) : BigNumber × BigNumber :=
  let p : BigNumber × BigNumber :=
    if is_greater_than_or_equal_to self other then (self, other)
    else (other, self)
  if p.1.sign = Sign.Positive then (msub p.1 p.2, p.2)
  else (madd p.1 p.2, p.2)

/-- Rust `add(&mut self, other: &mut BigNumber)`: on differing signs, when
the magnitude comparison says `self < other` only the digit lists are
swapped (`swap_digits`; the signs stay put) before `_subtract`; on equal
signs, `_add`.  The result pair is (`self` after, `other` after). -/
def add (self other : BigNumber) : BigNumber × BigNumber :=
  if self.sign ≠ other.sign then
    let p : BigNumber × BigNumber :=
      if is_greater_than_or_equal_to self other then (self, other)
      else ({ self with digits := other.digits },
            { other with digits := self.digits })
    (msub p.1 p.2, p.2)
  else (madd self other, other)

/-- The digit loop of Rust `multiply_by_int`: each stored digit becomes
`(digit * other + carry) % 10` cast `as u32`, with `i32` truncated
division and remainder; the pair returned is (new digits, final carry). -/
def mulIntLoop (other : Int) : List Nat → Int → List Nat × Int
  | [], carry => ([], carry)
  | d :: ds, carry =>
    let product : Int := (d : Int) * other + carry
    let rest := mulIntLoop other ds (product.tdiv 10)
    (u32cast (product.tmod 10) :: rest.1, rest.2)

/-- The trailing `while carry > 0` loop of Rust `multiply_by_int`,
pushing `carry % 10` and dividing the carry by `10`. -/
def pushCarryDigits (c : Nat) : List Nat :=
  if h : c = 0 then []
  else (c % 10) :: pushCarryDigits (c / 10)
decreasing_by exact Nat.div_lt_self (Nat.pos_of_ne_zero h) (by decide)

/-- Rust `multiply_by_int`: single-pass digit scaling with carry
propagation, then `normalize`.  The sign is untouched. -/
def multiply_by_int (self : BigNumber) (other : Int) : BigNumber :=
  let r := mulIntLoop other self.digits 0
  let ds := r.1 ++ (if r.2 > 0 then pushCarryDigits r.2.toNat else [])
  { self with digits := normalizeDigits ds }

/-- The inner loop of Rust `multiply`: for one digit `sd` of `self`,
accumulate `sd * other_digit + result[idx] + carry` into the result list
starting at position `idx`; returns the updated list and final carry. -/
def mulInner (sd : Nat) : List Nat → Nat → List Nat → Nat → List Nat × Nat
  | [], _, res, carry => (res, carry)
  | od :: os, idx, res, carry =>
    let product := sd * od + res.getD idx 0 + carry
    mulInner sd os (idx + 1) (res.set idx (product % 10)) (product / 10)

/-- The outer loop of Rust `multiply`: iterate `self`'s digits with their
index `i`; after each inner pass a positive carry is added into
`result[i + other.digits.len()]`. -/
def mulOuter (otherDigits : List Nat) : List Nat → Nat → List Nat → List Nat
  | [], _, res => res
  | sd :: ss, i, res =>
    let r := mulInner sd otherDigits i res 0
    let res3 :=
      if r.2 > 0 then
        r.1.set (i + otherDigits.length) (r.1.getD (i + otherDigits.length) 0 + r.2)
      else r.1
    mulOuter otherDigits ss (i + 1) res3

/-- Rust `multiply`: schoolbook convolution into a zero-filled result of
length `len(self) + len(other)`, built with sign `Positive`; the
normalized result is stored back into `self` and returned.  `other` is
only read. -/
def multiply (self other : BigNumber) : BigNumber :=
  let res := mulOuter other.digits self.digits 0
    (List.replicate (self.digits.length + other.digits.length) 0)
  { digits := normalizeDigits res, sign := Sign.Positive }

/-- The digit-pair scan of Rust `is_less_than_or_equal_to`: the zipped
reversed digit lists are walked most-significant digit first; the first
differing pair decides; exhaustion yields `true`. -/
def leDigitsLoop : List Nat → List Nat → Bool
  | a :: as, b :: bs =>
    if a < b then true
    else if a > b then false
    else leDigitsLoop as bs
  | _, _ => true

/-- Rust `is_less_than_or_equal_to`: differing signs decide first; then
shorter digit sequence wins; on equal length `leDigitsLoop` scans the
reversed digit lists. -/
def is_less_than_or_equal_to (self other : BigNumber) : Bool :=
  if is_negative self && is_positive other then true
  else if is_positive self && is_negative other then false
  else if self.digits.length < other.digits.length then true
  else if self.digits.length > other.digits.length then false
  else leDigitsLoop self.digits.reverse other.digits.reverse

/-- The literal `BigNumber::from_string("1")` used by `divide` and `sqrt`. -/
def oneLit : BigNumber :=
  { digits := [1], sign := Sign.Positive }

/-- The inner `while temp_divisor <= remainder` loop of Rust `divide`:
shift `temp` and `count` left one digit until `temp` exceeds the
remainder; `fuel` bounds the iterations (`none` = the loop has not
finished within `fuel` steps). -/
def divideInner : Nat → BigNumber → BigNumber → BigNumber →
    Option (BigNumber × BigNumber)
  | 0, _, _, _ => none
  | fuel + 1, remainder, temp, count =>
    if is_less_than_or_equal_to temp remainder then
      divideInner fuel remainder (shift_left temp 1) (shift_left count 1)
    else some (temp, count)

/-- The outer `while remainder >= divisor` loop of Rust `divide`: each pass
re-runs the inner doubling loop from a fresh copy of the divisor and a
count of `1`, steps both back one digit, subtracts the scratch multiple
from the remainder (`subtract` on a discarded clone) and adds the count
into the quotient. -/
def divideLoop : Nat → BigNumber → BigNumber → BigNumber →
    Option BigNumber
  | 0, _, _, _ => none
  | fuel + 1, divisor, remainder, quotient =>
    if is_greater_than_or_equal_to remainder divisor then
      match divideInner (fuel + 1) remainder divisor oneLit with
      | none => none
      | some tc =>
        let temp2 := shift_right tc.1 1
        let count2 := shift_right tc.2 1
        let remainder2 := (subtract remainder temp2).1
        let quotient2 := (add quotient count2).1
        divideLoop fuel divisor remainder2 quotient2
    else some quotient

/-- Rust `divide`: panics (`Except.error`) on a single-digit-zero divisor;
otherwise runs the doubling long division on the sign-stripped dividend,
flips the quotient's sign when the divisor is negative, and normalizes.
`none` means a loop failed to finish within `fuel` steps. -/
def divide (fuel : Nat) (self divisor : BigNumber) :
    Option (Except String BigNumber) :=
  if is_zero divisor then some (Except.error "Division by zero")
  else
    let quotient : BigNumber :=
      { digits := List.replicate self.digits.length 0, sign := Sign.Positive }
    let remainder : BigNumber := { self with sign := Sign.Positive }
    match divideLoop fuel divisor remainder quotient with
    | none => none
    | some q =>
      let q2 :=
        if is_negative divisor then
          { q with sign := match q.sign with
              | Sign.Positive => Sign.Negative
              | Sign.Negative => Sign.Positive }
        else q
      some (Except.ok (normalize q2))

/-- The `while dividend >= divisor` loop of Rust `is_divisible_by`: divide,
multiply the quotient back, subtract to get the remainder, answer `true`
on a zero remainder, else continue from the remainder. -/
def isDivisibleLoop : Nat → BigNumber → BigNumber →
    Option (Except String Bool)
  | 0, _, _ => none
  | fuel + 1, dividend, divisor =>
    if is_greater_than_or_equal_to dividend divisor then
      match divide (fuel + 1) dividend divisor with
      | none => none
      | some (Except.error e) => some (Except.error e)
      | some (Except.ok q) =>
        let remainder := (subtract dividend (multiply q divisor)).1
        if is_zero remainder then some (Except.ok true)
        else isDivisibleLoop fuel remainder divisor
    else some (Except.ok false)

/-- Rust `is_divisible_by`: panics (`Except.error`) on a single-digit-zero
divisor; otherwise runs the repeated-division loop on the sign-stripped
dividend. -/
def is_divisible_by (fuel : Nat) (self divisor : BigNumber) :
    Option (Except String Bool) :=
  if is_zero divisor then some (Except.error "Division by zero")
  else isDivisibleLoop fuel { self with sign := Sign.Positive } divisor

/-- The first loop of Rust `sqrt`: while `y <= x`, shift `x` right one
digit and `y` left one digit. -/
def sqrtLoop1 : Nat → BigNumber → BigNumber → Option (BigNumber × BigNumber)
  | 0, _, _ => none
  | fuel + 1, x, y =>
    if is_less_than_or_equal_to y x then
      sqrtLoop1 fuel (shift_right x 1) (shift_left y 1)
    else some (x, y)

/-- The second loop of Rust `sqrt`: while `y >= x` (magnitude comparison),
run `y.subtract(&mut x)` (which may swap the operands' fields), then
shift the post-call `x` right one digit and the post-call `y` left two
digits. -/
def sqrtLoop2 : Nat → BigNumber → BigNumber → Option BigNumber
  | 0, _, _ => none
  | fuel + 1, x, y =>
    if is_greater_than_or_equal_to y x then
      let p := subtract y x
      sqrtLoop2 fuel (shift_right p.2 1) (shift_left (shift_left p.1 1) 1)
    else some x

/-- Rust `sqrt`: run the two loops starting from `x = self`, `y = 1`;
each loop gets its own fuel. -/
def sqrt (fuel1 fuel2 : Nat) (self : BigNumber) : Option BigNumber :=
  match sqrtLoop1 fuel1 self oneLit with
  | none => none
  | some xy => sqrtLoop2 fuel2 xy.1 xy.2

end BigNumber

/-! Helper lemmas: single-step unfoldings of the fuelled loops, and small
facts about the shift primitives, used in the divergence proofs below. -/

lemma shift_left_digits (b : BigNumber) (n : Nat) :
    (BigNumber.shift_left b n).digits = List.replicate n 0 ++ b.digits := rfl

lemma shift_left_length (b : BigNumber) (n : Nat) :
    (BigNumber.shift_left b n).digits.length = n + b.digits.length := by
  simp [BigNumber.shift_left]

lemma shift_right_zero (b : BigNumber) (h : b.digits = [0]) :
    (BigNumber.shift_right b 1).digits = [0] := by
  simp [BigNumber.shift_right, h]

lemma subtract_snd_of_ge (a b : BigNumber)
    (h : BigNumber.is_greater_than_or_equal_to a b = true) :
    (BigNumber.subtract a b).2 = b := by
  unfold BigNumber.subtract
  rw [if_pos h]
  show (if a.sign = Sign.Positive
    then (BigNumber.msub a b, b) else (BigNumber.madd a b, b)).2 = b
  split <;> rfl

lemma sqrtLoop2_step (fuel : Nat) (x y : BigNumber)
    (h : BigNumber.is_greater_than_or_equal_to y x = true) :
    BigNumber.sqrtLoop2 (fuel + 1) x y =
      BigNumber.sqrtLoop2 fuel
        (BigNumber.shift_right (BigNumber.subtract y x).2 1)
        (BigNumber.shift_left (BigNumber.shift_left (BigNumber.subtract y x).1 1) 1) := by
  simp [BigNumber.sqrtLoop2, h]

lemma ge_of_longer (a b : BigNumber)
    (h : b.digits.length < a.digits.length) :
    BigNumber.is_greater_than_or_equal_to a b = true := by
  unfold BigNumber.is_greater_than_or_equal_to
  rw [if_pos h]

/-- Once the second `sqrt` loop reaches a state with `x = [0]` and `y` at
least two digits long, the guard `y >= x` holds forever: the body keeps
`x` at `[0]` and keeps `y` at least two digits, so the loop never exits. -/
lemma sqrtLoop2_diverges (fuel : Nat) :
    ∀ x y : BigNumber, x.digits = [0] → 2 ≤ y.digits.length →
      BigNumber.sqrtLoop2 fuel x y = none := by
  induction fuel with
  | zero => intro x y _ _; rfl
  | succ f ih =>
    intro x y hx hy
    have hxlen : x.digits.length = 1 := by rw [hx]; rfl
    have hguard : BigNumber.is_greater_than_or_equal_to y x = true :=
      ge_of_longer y x (by omega)
    rw [sqrtLoop2_step f x y hguard]
    apply ih
    · rw [subtract_snd_of_ge y x hguard]
      exact shift_right_zero x hx
    · rw [shift_left_length, shift_left_length]
      omega

lemma divideInner_step (fuel : Nat) (remainder temp count : BigNumber)
    (h : BigNumber.is_less_than_or_equal_to temp remainder = true) :
    BigNumber.divideInner (fuel + 1) remainder temp count =
      BigNumber.divideInner fuel remainder
        (BigNumber.shift_left temp 1) (BigNumber.shift_left count 1) := by
  simp [BigNumber.divideInner, h]

lemma divideInner_stop (fuel : Nat) (remainder temp count : BigNumber)
    (h : BigNumber.is_less_than_or_equal_to temp remainder = false) :
    BigNumber.divideInner (fuel + 1) remainder temp count = some (temp, count) := by
  simp [BigNumber.divideInner, h]

lemma divideLoop_step (fuel : Nat) (divisor remainder quotient : BigNumber)
    (tc : BigNumber × BigNumber)
    (hg : BigNumber.is_greater_than_or_equal_to remainder divisor = true)
    (hi : BigNumber.divideInner (fuel + 1) remainder divisor BigNumber.oneLit
      = some tc) :
    BigNumber.divideLoop (fuel + 1) divisor remainder quotient =
      BigNumber.divideLoop fuel divisor
        (BigNumber.subtract remainder (BigNumber.shift_right tc.1 1)).1
        (BigNumber.add quotient (BigNumber.shift_right tc.2 1)).1 := by
  simp [BigNumber.divideLoop, hg, hi]

/-- The doubling division loop run with divisor `00` (two zero digits) and
remainder `36` subtracts zero from the remainder on every pass, so the
remainder never drops below the divisor and the loop never exits. -/
lemma divideLoop_00_diverges (fuel : Nat) :
    ∀ quotient : BigNumber,
      BigNumber.divideLoop fuel ⟨[0, 0], Sign.Positive⟩ ⟨[6, 3], Sign.Positive⟩
        quotient = none := by
  induction fuel with
  | zero => intro q; rfl
  | succ f ih =>
    intro q
    have hg : BigNumber.is_greater_than_or_equal_to
        ⟨[6, 3], Sign.Positive⟩ ⟨[0, 0], Sign.Positive⟩ = true := by decide
    match f with
    | 0 =>
      have h1 : BigNumber.is_less_than_or_equal_to
          ⟨[0, 0], Sign.Positive⟩ ⟨[6, 3], Sign.Positive⟩ = true := by decide
      simp [BigNumber.divideLoop, hg, BigNumber.divideInner, h1]
    | g + 1 =>
      have hi : BigNumber.divideInner (g + 2) ⟨[6, 3], Sign.Positive⟩
          ⟨[0, 0], Sign.Positive⟩ BigNumber.oneLit
          = some (⟨[0, 0, 0], Sign.Positive⟩, ⟨[0, 1], Sign.Positive⟩) := by
        rw [show g + 2 = g + 1 + 1 from rfl]
        rw [divideInner_step (g + 1) _ _ _ (by decide)]
        have e1 : BigNumber.shift_left ⟨[0, 0], Sign.Positive⟩ 1
            = ⟨[0, 0, 0], Sign.Positive⟩ := by decide
        have e2 : BigNumber.shift_left BigNumber.oneLit 1
            = ⟨[0, 1], Sign.Positive⟩ := by decide
        rw [e1, e2]
        exact divideInner_stop g _ _ _ (by decide)
      rw [divideLoop_step (g + 1) _ _ q _ hg hi]
      have e3 : (BigNumber.subtract ⟨[6, 3], Sign.Positive⟩
          (BigNumber.shift_right ⟨[0, 0, 0], Sign.Positive⟩ 1)).1
          = ⟨[6, 3], Sign.Positive⟩ := by decide
      rw [e3]
      exact ih _

lemma sqrtLoop1_step (fuel : Nat) (x y : BigNumber)
    (h : BigNumber.is_less_than_or_equal_to y x = true) :
    BigNumber.sqrtLoop1 (fuel + 1) x y =
      BigNumber.sqrtLoop1 fuel (BigNumber.shift_right x 1)
        (BigNumber.shift_left y 1) := by
  simp [BigNumber.sqrtLoop1, h]

lemma sqrtLoop1_stop (fuel : Nat) (x y : BigNumber)
    (h : BigNumber.is_less_than_or_equal_to y x = false) :
    BigNumber.sqrtLoop1 (fuel + 1) x y = some (x, y) := by
  simp [BigNumber.sqrtLoop1, h]

/-- On input `36`, the first `sqrt` loop takes exactly one step (with any
fuel of at least two) and hands `x = 3`, `y = 10` to the second loop. -/
lemma sqrtLoop1_36 (fuel : Nat) :
    BigNumber.sqrtLoop1 (fuel + 2) ⟨[6, 3], Sign.Positive⟩ BigNumber.oneLit
      = some (⟨[3], Sign.Positive⟩, ⟨[0, 1], Sign.Positive⟩) := by
  rw [show fuel + 2 = fuel + 1 + 1 from rfl]
  rw [sqrtLoop1_step (fuel + 1) _ _ (by decide)]
  have e1 : BigNumber.shift_right ⟨[6, 3], Sign.Positive⟩ 1
      = ⟨[3], Sign.Positive⟩ := by decide
  have e2 : BigNumber.shift_left BigNumber.oneLit 1
      = ⟨[0, 1], Sign.Positive⟩ := by decide
  rw [e1, e2]
  exact sqrtLoop1_stop fuel _ _ (by decide)

/-- Claim C1: `is_greater_than_or_equal_to` is claimed to decide
"magnitude of `a` is at least magnitude of `b`", comparing equal-length
sequences most-significant digit first with equal sequences returning
`true`.  The code instead scans equal-length sequences
least-significant digit first and returns `false` on equal sequences:
it reports `19 >= 21` even though the magnitude of `19` is smaller, and
reports `5 >= 5` false. -/
theorem ge_magnitude_bug_eval :
    BigNumber.from_string "19" = some ⟨[9, 1], Sign.Positive⟩ ∧
    BigNumber.from_string "21" = some ⟨[1, 2], Sign.Positive⟩ ∧
    BigNumber.is_greater_than_or_equal_to
      ⟨[9, 1], Sign.Positive⟩ ⟨[1, 2], Sign.Positive⟩ = true ∧
    magVal [9, 1] < magVal [1, 2] ∧
    BigNumber.is_greater_than_or_equal_to
      ⟨[5], Sign.Positive⟩ ⟨[5], Sign.Positive⟩ = false :=
  ⟨rfl, rfl, rfl, by decide, rfl⟩

/-- Claim C2: `Divide(Parse("36"), Parse("6"))` is claimed to equal
`Parse("6")` and `IsDivisibleBy(Parse("36"), Parse("6"))` to be `true`.
The code's division stops one pass early (the comparison bug of C1 makes
`remainder >= divisor` false when the two are equal), so the quotient is
`5` and the divisibility check answers `false`. -/
theorem divide_36_by_6_eval :
    BigNumber.from_string "36" = some ⟨[6, 3], Sign.Positive⟩ ∧
    BigNumber.from_string "6" = some ⟨[6], Sign.Positive⟩ ∧
    BigNumber.divide 32 ⟨[6, 3], Sign.Positive⟩ ⟨[6], Sign.Positive⟩
      = some (Except.ok ⟨[5], Sign.Positive⟩) ∧
    BigNumber.is_divisible_by 32 ⟨[6, 3], Sign.Positive⟩ ⟨[6], Sign.Positive⟩
      = some (Except.ok false) ∧
    (⟨[5], Sign.Positive⟩ : BigNumber) ≠ ⟨[6], Sign.Positive⟩ :=
  ⟨rfl, rfl, rfl, rfl, by decide⟩

/-- Claim C3: `IntegerSquareRoot` is claimed to terminate on every
non-negative input, with `IntegerSquareRoot(Parse("36"))` denoting `6`.
On input `36` the second loop never exits: after its first pass `x`
collapses to `[0]` and `y` keeps at least two digits, so the guard
`y >= x` holds forever.  Modelled with fuel, the run returns `none` for
every fuel bound of either loop. -/
theorem sqrt_36_diverges (fuel1 fuel2 : Nat) :
    BigNumber.sqrt fuel1 fuel2 ⟨[6, 3], Sign.Positive⟩ = none := by
  unfold BigNumber.sqrt
  match fuel1 with
  | 0 => rfl
  | 1 =>
    rw [sqrtLoop1_step 0 _ _ (by decide)]
    rfl
  | f + 2 =>
    rw [sqrtLoop1_36 f]
    show BigNumber.sqrtLoop2 fuel2 ⟨[3], Sign.Positive⟩ ⟨[0, 1], Sign.Positive⟩
      = none
    match fuel2 with
    | 0 => rfl
    | g + 1 =>
      rw [sqrtLoop2_step g _ _ (by decide)]
      have e1 : BigNumber.shift_right
          (BigNumber.subtract ⟨[0, 1], Sign.Positive⟩ ⟨[3], Sign.Positive⟩).2 1
          = ⟨[0], Sign.Positive⟩ := by decide
      have e2 : BigNumber.shift_left (BigNumber.shift_left
          (BigNumber.subtract ⟨[0, 1], Sign.Positive⟩ ⟨[3], Sign.Positive⟩).1 1) 1
          = ⟨[0, 0, 7], Sign.Positive⟩ := by decide
      rw [e1, e2]
      exact sqrtLoop2_diverges g _ _ rfl (by decide)

/-- Claim C4: on differing signs, `Add(a, b)` is claimed to carry the sign
of the operand with the larger magnitude, so `Add(Parse("1"),
Parse("-5"))` should be negative.  The code's `add` swaps only the digit
lists (not the signs) before magnitude-subtracting, so the result always
keeps the first operand's sign: `Add(1, -5)` evaluates to positive `4`. -/
theorem add_mixed_sign_keeps_first_sign_eval :
    BigNumber.from_string "1" = some ⟨[1], Sign.Positive⟩ ∧
    BigNumber.from_string "-5" = some ⟨[5], Sign.Negative⟩ ∧
    (BigNumber.add ⟨[1], Sign.Positive⟩ ⟨[5], Sign.Negative⟩).1
      = ⟨[4], Sign.Positive⟩ ∧
    Sign.Positive ≠ Sign.Negative :=
  ⟨rfl, rfl, rfl, by decide⟩

/-- Claim C5: the sign of `Multiply(a, b)` is claimed to be `Negative`
when the operands' signs differ.  The code builds the result with sign
`Positive` and never consults the operands' signs, so
`Multiply(Parse("-2"), Parse("3"))` evaluates to positive `6` (a
non-zero result, so the zero exception does not apply). -/
theorem multiply_sign_dropped_eval :
    BigNumber.from_string "-2" = some ⟨[2], Sign.Negative⟩ ∧
    BigNumber.from_string "3" = some ⟨[3], Sign.Positive⟩ ∧
    BigNumber.multiply ⟨[2], Sign.Negative⟩ ⟨[3], Sign.Positive⟩
      = ⟨[6], Sign.Positive⟩ ∧
    magVal [6] ≠ 0 :=
  ⟨rfl, rfl, rfl, by decide⟩

/-- Claim C6: the quotient's sign is claimed to be `Negative` iff exactly
one of dividend and divisor is negative; in particular a negative
dividend with a positive divisor should give a negative quotient.  The
code only flips the quotient's sign for a negative divisor and ignores
the dividend's sign: `Divide(Parse("-6"), Parse("3"))` evaluates to a
`Positive` quotient (of magnitude `1`, the comparison bug of C1 also
costing the final pass). -/
theorem divide_negative_dividend_sign_eval :
    BigNumber.from_string "-6" = some ⟨[6], Sign.Negative⟩ ∧
    BigNumber.from_string "3" = some ⟨[3], Sign.Positive⟩ ∧
    BigNumber.divide 16 ⟨[6], Sign.Negative⟩ ⟨[3], Sign.Positive⟩
      = some (Except.ok ⟨[1], Sign.Positive⟩) ∧
    Sign.Positive ≠ Sign.Negative :=
  ⟨rfl, rfl, rfl, by decide⟩

/-- Claim C7: normalization is claimed to stop at one remaining digit, so
a zero value keeps the digit sequence `[0]` and the products
`Multiply(a, Parse("0"))` and `MultiplyBySmallInteger(a, 0)` have digit
sequence `[0]`.  The code's `normalize` strips every trailing zero,
including the last digit: normalizing `[0]` yields the empty sequence,
and both zero products have empty digit sequences. -/
theorem normalize_empties_zero_eval :
    BigNumber.from_string "0" = some ⟨[0], Sign.Positive⟩ ∧
    BigNumber.normalize ⟨[0], Sign.Positive⟩ = ⟨[], Sign.Positive⟩ ∧
    (BigNumber.multiply ⟨[5], Sign.Positive⟩ ⟨[0], Sign.Positive⟩).digits = [] ∧
    (BigNumber.multiply_by_int ⟨[5], Sign.Positive⟩ 0).digits = [] :=
  ⟨rfl, rfl, rfl, rfl⟩

/-- Claim C8: `Divide` and `IsDivisibleBy` are claimed to fail with
`DivisionByZero` exactly when the divisor has zero magnitude, including
a multi-digit zero such as `Parse("00")`.  The code's zero test requires
exactly one stored digit, so `Parse("00")` (magnitude zero) is not
detected; `divide` then enters its loop, subtracts zero from the
remainder on every pass, and never terminates (`none` for every fuel)
instead of raising the error. -/
theorem divide_by_multidigit_zero_no_panic :
    BigNumber.from_string "00" = some ⟨[0, 0], Sign.Positive⟩ ∧
    BigNumber.is_zero ⟨[0, 0], Sign.Positive⟩ = false ∧
    magVal [0, 0] = 0 ∧
    ∀ fuel, BigNumber.divide fuel ⟨[6, 3], Sign.Positive⟩
      ⟨[0, 0], Sign.Positive⟩ = none := by
  refine ⟨rfl, rfl, rfl, ?_⟩
  intro fuel
  have hz : BigNumber.is_zero ⟨[0, 0], Sign.Positive⟩ = false := rfl
  have h := divideLoop_00_diverges fuel
  simp [BigNumber.divide, hz, h]

/-- Claim C9 (amended): `Add(a, b)` and `Subtract(a, b)` leave the second
operand unchanged except when the operand swap fires: `Subtract` leaves
`b` untouched whenever the code's magnitude comparison reports
`a >= b`, and `Add` leaves `b` untouched whenever the signs agree or the
comparison reports `a >= b`. -/
theorem add_subtract_frame_no_swap (a b : BigNumber) :
    (BigNumber.is_greater_than_or_equal_to a b = true →
      (BigNumber.subtract a b).2 = b) ∧
    ((a.sign = b.sign ∨ BigNumber.is_greater_than_or_equal_to a b = true) →
      (BigNumber.add a b).2 = b) := by
  constructor
  · intro h
    exact subtract_snd_of_ge a b h
  · intro h
    unfold BigNumber.add
    by_cases hs : a.sign = b.sign
    · rw [if_neg (by simp [hs])]
    · have hge : BigNumber.is_greater_than_or_equal_to a b = true := by
        rcases h with h | h
        · exact absurd h hs
        · exact h
      rw [if_pos (by simp [hs])]
      rw [if_pos hge]

/-- Witness for C9's amended theorem at `a = 5`, `b = 3`. -/
theorem add_subtract_frame_no_swap_witness :
    (BigNumber.subtract ⟨[5], Sign.Positive⟩ ⟨[3], Sign.Positive⟩).2
      = ⟨[3], Sign.Positive⟩ ∧
    (BigNumber.add ⟨[5], Sign.Positive⟩ ⟨[3], Sign.Positive⟩).2
      = ⟨[3], Sign.Positive⟩ :=
  ⟨(add_subtract_frame_no_swap ⟨[5], Sign.Positive⟩ ⟨[3], Sign.Positive⟩).1
      (by decide),
   (add_subtract_frame_no_swap ⟨[5], Sign.Positive⟩ ⟨[3], Sign.Positive⟩).2
      (Or.inl rfl)⟩

/-- Counterexample for C9 as stated: `Subtract(Parse("1"), Parse("5"))`
swaps the operands' digit lists, so the second operand's digit sequence
changes from `[5]` to `[1]`. -/
theorem subtract_mutates_second_operand :
    (BigNumber.subtract ⟨[1], Sign.Positive⟩ ⟨[5], Sign.Positive⟩).2
      ≠ ⟨[5], Sign.Positive⟩ := by
  decide

/-- Claim C10: `Parse("")` yields an empty digit sequence with `Positive`
sign and `Parse("-")` an empty digit sequence with `Negative` sign;
neither value is recognized by `is_zero`, and both print as `"0"`. -/
theorem parse_empty_and_dash_eval :
    BigNumber.from_string "" = some ⟨[], Sign.Positive⟩ ∧
    BigNumber.from_string "-" = some ⟨[], Sign.Negative⟩ ∧
    BigNumber.is_zero ⟨[], Sign.Positive⟩ = false ∧
    BigNumber.is_zero ⟨[], Sign.Negative⟩ = false ∧
    BigNumber.print ⟨[], Sign.Positive⟩ = "0" ∧
    BigNumber.print ⟨[], Sign.Negative⟩ = "0" :=
  ⟨rfl, rfl, rfl, rfl, rfl, rfl⟩
